import Mathlib

/-!
Verification of the AI fitness trainer repository (pose-based exercise
counter).  The detector state machine, the feedback rules, the front-leg
selection of the angle aggregator, and the joint-angle calculator are
embedded below, translated from the Python sources:
exercise_detector.py, feedback_system.py, main.py, angle_utils.py.
Angle values carried in dictionaries are modelled as rationals; the
trigonometric angle calculator is modelled over the reals.
-/

/-- The three exercises that key the rep_counters and last_phase
dictionaries of the detector (their keys are exactly "Squat",
"Push-up", "Lunge"). -/
inductive Exercise where
  | Squat
  | Pushup
  | Lunge
deriving DecidableEq, Repr

/-- The dictionary key name of an exercise, as used by set_exercise. -/
def Exercise.name : Exercise → String
  | .Squat => "Squat"
  | .Pushup => "Push-up"
  | .Lunge => "Lunge"

/-- An angle dictionary (Dict[str, float] in the source), modelled as an
association list from keys to rational angle values. -/
def AngleMap : Type := List (String × ℚ)

/-- Python dict.get(key, default): the value bound to the key, or the
default when the key is absent. -/
def dictGet (m : AngleMap) (k : String) (d : ℚ) : ℚ :=
  (List.lookup k m).getD d

/-- The state held by ExerciseDetector.__init__: one repetition counter
and one phase string per exercise, plus the currently selected
exercise (initially Squat). -/
structure DetectorState where
  squat_reps : ℤ
  pushup_reps : ℤ
  lunge_reps : ℤ
  squat_phase : String
  pushup_phase : String
  lunge_phase : String
  current_exercise : Exercise
deriving DecidableEq, Repr

/-- The state built by ExerciseDetector.__init__. -/
def initState : DetectorState :=
  { squat_reps := 0, pushup_reps := 0, lunge_reps := 0,
    squat_phase := "up", pushup_phase := "up", lunge_phase := "up",
    current_exercise := Exercise.Squat }

/-- rep_counters[e] of a detector state. -/
def DetectorState.repsOf (s : DetectorState) : Exercise → ℤ
  | .Squat => s.squat_reps
  | .Pushup => s.pushup_reps
  | .Lunge => s.lunge_reps

/-- last_phase[e] of a detector state. -/
def DetectorState.phaseOf (s : DetectorState) : Exercise → String
  | .Squat => s.squat_phase
  | .Pushup => s.pushup_phase
  | .Lunge => s.lunge_phase

/-- The structured response ExerciseStatus returned by update. -/
structure ExerciseStatus where
  exercise : String
  reps : ℤ
  phase : String
deriving DecidableEq, Repr

/-- ExerciseDetector.set_exercise: selects the exercise when the given
name is a key of rep_counters, otherwise does nothing. -/
def ExerciseDetector.set_exercise (s : DetectorState) (exercise_name : String) :
    DetectorState :=
  if exercise_name = "Squat" then { s with current_exercise := Exercise.Squat }
  else if exercise_name = "Push-up" then { s with current_exercise := Exercise.Pushup }
  else if exercise_name = "Lunge" then { s with current_exercise := Exercise.Lunge }
  else s

/-- ExerciseDetector.update: threshold logic and phase transitions for
the selected exercise.  The characteristic angle defaults to 180 when
its key is absent.  Returns the new state together with the
ExerciseStatus the method returns. -/
def ExerciseDetector.update (s : DetectorState) (angles : AngleMap) :
    DetectorState × ExerciseStatus :=
  match s.current_exercise with
  | Exercise.Squat =>
      if dictGet angles "knee" 180 < 70 then
        ({ s with squat_phase := "down" },
         { exercise := "Squat", reps := s.squat_reps, phase := "down" })
      else if dictGet angles "knee" 180 > 160 ∧ s.squat_phase = "down" then
        ({ s with squat_reps := s.squat_reps + 1, squat_phase := "up" },
         { exercise := "Squat", reps := s.squat_reps + 1, phase := "up" })
      else
        (s, { exercise := "Squat", reps := s.squat_reps, phase := s.squat_phase })
  | Exercise.Pushup =>
      if dictGet angles "elbow" 180 < 70 then
        ({ s with pushup_phase := "down" },
         { exercise := "Push-up", reps := s.pushup_reps, phase := "down" })
      else if dictGet angles "elbow" 180 > 160 ∧ s.pushup_phase = "down" then
        ({ s with pushup_reps := s.pushup_reps + 1, pushup_phase := "up" },
         { exercise := "Push-up", reps := s.pushup_reps + 1, phase := "up" })
      else
        (s, { exercise := "Push-up", reps := s.pushup_reps, phase := s.pushup_phase })
  | Exercise.Lunge =>
      if dictGet angles "front_knee" 180 < 80 then
        ({ s with lunge_phase := "down" },
         { exercise := "Lunge", reps := s.lunge_reps, phase := "down" })
      else if dictGet angles "front_knee" 180 > 160 ∧ s.lunge_phase = "down" then
        ({ s with lunge_reps := s.lunge_reps + 1, lunge_phase := "up" },
         { exercise := "Lunge", reps := s.lunge_reps + 1, phase := "up" })
      else
        (s, { exercise := "Lunge", reps := s.lunge_reps, phase := s.lunge_phase })

/-- The characteristic angle key read by update for each exercise. -/
def charKey : Exercise → String
  | .Squat => "knee"
  | .Pushup => "elbow"
  | .Lunge => "front_knee"

/-- Feed a sequence of knee angles to the detector, one singleton angle
map per frame, starting from the initial state (Squat selected). -/
def runSquatSeq (l : List ℚ) : DetectorState :=
  l.foldl (fun s a => (ExerciseDetector.update s [("knee", a)]).1) initState

/-- One external call to the detector: either an update with an angle
map or a set_exercise with a name. -/
inductive Step where
  | upd (angles : AngleMap)
  | sel (exercise_name : String)

/-- Apply one call to a detector state. -/
def applyStep (s : DetectorState) : Step → DetectorState
  | .upd m => (ExerciseDetector.update s m).1
  | .sel n => ExerciseDetector.set_exercise s n

/-- Run a sequence of calls from the initial state. -/
def runSteps (steps : List Step) : DetectorState :=
  steps.foldl applyStep initState

/-- FeedbackSystem.get_feedback: coaching hint from the exercise name,
the angle map and the joints map (front knee and front toe points). -/
def FeedbackSystem.get_feedback (exercise : String) (angles : AngleMap)
    (joints : List (String × (ℚ × ℚ))) : String :=
  if exercise = "Squat" then
    if dictGet angles "back" 180 < 150 then "Keep your back straight"
    else if dictGet angles "knee" 180 > 90 ∧ dictGet angles "phase_down_score" 0 > 0 then
      "Go lower"
    else "Great squat form"
  else if exercise = "Push-up" then
    if dictGet angles "elbow" 180 > 160 then "Lower your body"
    else if dictGet angles "body_line" 180 < 155 then "Keep body straight"
    else "Great push-up form"
  else if exercise = "Lunge" then
    match List.lookup "front_knee" joints, List.lookup "front_toe" joints with
    | some knee, some toe =>
        if knee.1 > toe.1 then "Don't push knee forward" else "Great lunge form"
    | _, _ => "Great lunge form"
  else "Select an exercise"

/-- The front-leg selection of compute_angles in main.py: the front knee
is the knee lower in the frame (larger y), and the matching ankle and
hip are chosen by comparing the selected knee point with the left knee
point.  Returns the (front_hip, front_knee, front_ankle) triple fed to
calculate_angle. -/
def frontLegPoints (left_hip right_hip left_knee right_knee left_ankle right_ankle :
    ℚ × ℚ) : (ℚ × ℚ) × (ℚ × ℚ) × (ℚ × ℚ) :=
  let front_knee := if left_knee.2 > right_knee.2 then left_knee else right_knee
  let front_ankle := if front_knee = left_knee then left_ankle else right_ankle
  let front_hip := if front_knee = left_knee then left_hip else right_hip
  (front_hip, front_knee, front_ankle)

/-- calculate_angle in angle_utils.py, modelled over the reals: the
angle in degrees at the vertex point2, computed as the arccosine of the
clipped normalised dot product of the two edge vectors, or 0 when one
of the vectors has zero norm. -/
noncomputable def calculate_angle (p1 p2 p3 : ℝ × ℝ) : ℝ :=
  if Real.sqrt ((p1.1 - p2.1) ^ 2 + (p1.2 - p2.2) ^ 2) = 0 ∨
     Real.sqrt ((p3.1 - p2.1) ^ 2 + (p3.2 - p2.2) ^ 2) = 0 then 0
  else
    Real.arccos (max (-1) (min 1
      (((p1.1 - p2.1) * (p3.1 - p2.1) + (p1.2 - p2.2) * (p3.2 - p2.2)) /
       (Real.sqrt ((p1.1 - p2.1) ^ 2 + (p1.2 - p2.2) ^ 2) *
        Real.sqrt ((p3.1 - p2.1) ^ 2 + (p3.2 - p2.2) ^ 2))))) * 180 / Real.pi

/-- C3: from the initial state with Squat selected, the knee-angle
sequence [180, 60, 180] yields exactly 1 counted repetition and final
phase "up". -/
theorem squat_180_60_180_one_rep :
    (runSquatSeq [180, 60, 180]).repsOf Exercise.Squat = 1 ∧
    (runSquatSeq [180, 60, 180]).phaseOf Exercise.Squat = "up" := by
  decide

/-- C4: from the initial state with Squat selected, the knee-angle
sequence [180, 60, 120, 60, 180] yields exactly 1 repetition, not 2:
dips that do not return above the 160 threshold are not counted. -/
theorem squat_debounce_one_rep :
    (runSquatSeq [180, 60, 120, 60, 180]).repsOf Exercise.Squat = 1 := by
  decide

/-- C9: Squat feedback with back 140, knee 100, phase_down_score 1 is
exactly "Keep your back straight": the back-straightness rule is
evaluated before the depth rule and the first match wins. -/
theorem squat_feedback_back_priority :
    FeedbackSystem.get_feedback "Squat"
      [("back", 140), ("knee", 100), ("phase_down_score", 1)] [] =
      "Keep your back straight" := by
  decide

/-- When the key is absent, dict.get returns its default. -/
theorem dictGet_of_lookup_none {m : AngleMap} {k : String} (d : ℚ)
    (h : List.lookup k m = none) : dictGet m k d = d := by
  simp [dictGet, h]

/-- C1 counterexample: after one squat update with knee 60 (now in
phase "down", 0 reps), an update with the empty angle map increments
the squat repetition counter, so it does not leave the count
unchanged. -/
theorem update_missing_angle_counterexample :
    ((ExerciseDetector.update
        (ExerciseDetector.update initState [("knee", 60)]).1 []).1).repsOf
      Exercise.Squat ≠
    ((ExerciseDetector.update initState [("knee", 60)]).1).repsOf
      Exercise.Squat := by
  decide

/-- C1 amended: when the characteristic angle key of the selected
exercise is absent from the map, the angle defaults to 180; if the
selected exercise's prior phase is "up" this produces no transition,
leaving its phase and repetition count unchanged. -/
theorem update_missing_angle_noop (s : DetectorState) (m : AngleMap)
    (h1 : List.lookup (charKey s.current_exercise) m = none)
    (h2 : s.phaseOf s.current_exercise = "up") :
    ((ExerciseDetector.update s m).1).repsOf s.current_exercise =
      s.repsOf s.current_exercise ∧
    ((ExerciseDetector.update s m).1).phaseOf s.current_exercise =
      s.phaseOf s.current_exercise := by
  rcases s with ⟨sr, pr, lr, sp, pp, lp, cur⟩
  cases cur <;>
    simp only [charKey, DetectorState.phaseOf] at h1 h2 <;>
    simp [ExerciseDetector.update, dictGet_of_lookup_none _ h1, h2,
      DetectorState.repsOf, DetectorState.phaseOf] <;>
    norm_num

/-- C1 witness for the amended statement at the initial state and the
empty angle map. -/
theorem update_missing_angle_noop_witness :
    (List.lookup (charKey initState.current_exercise) ([] : AngleMap) = none ∧
     initState.phaseOf initState.current_exercise = "up") ∧
    (((ExerciseDetector.update initState []).1).repsOf initState.current_exercise =
       initState.repsOf initState.current_exercise ∧
     ((ExerciseDetector.update initState []).1).phaseOf initState.current_exercise =
       initState.phaseOf initState.current_exercise) :=
  ⟨⟨by decide, by decide⟩,
   update_missing_angle_noop initState [] (by decide) (by decide)⟩

/-- C2 counterexample: with both knees at equal height y = 5 and
distinct x coordinates, the front-leg selection returns the right
triple (right hip, right knee, right ankle), not the left one. -/
theorem frontleg_tie_counterexample :
    frontLegPoints (0, 1) (10, 1) (0, 5) (10, 5) (0, 9) (10, 9) =
      ((10, 1), (10, 5), (10, 9)) ∧
    frontLegPoints (0, 1) (10, 1) (0, 5) (10, 5) (0, 9) (10, 9) ≠
      ((0, 1), (0, 5), (0, 9)) := by
  constructor <;> decide

/-- C2 amended: when the two knee points have equal vertical
coordinates and are distinct points, the right leg is chosen as the
front leg, so the front-knee angle inputs are the right hip, right
knee and right ankle. -/
theorem frontleg_tie_right (lh rh lk rk la ra : ℚ × ℚ)
    (hy : lk.2 = rk.2) (hne : lk ≠ rk) :
    frontLegPoints lh rh lk rk la ra = (rh, rk, ra) := by
  have hgt : ¬ lk.2 > rk.2 := by rw [hy]; exact lt_irrefl _
  have hkr : rk ≠ lk := Ne.symm hne
  simp [frontLegPoints, hgt, hkr]

/-- C2 witness for the amended statement at concrete knee points of
equal height. -/
theorem frontleg_tie_right_witness :
    (((0 : ℚ), (5 : ℚ)).2 = ((10 : ℚ), (5 : ℚ)).2 ∧
      ((0 : ℚ), (5 : ℚ)) ≠ ((10 : ℚ), (5 : ℚ))) ∧
    frontLegPoints (0, 1) (10, 1) (0, 5) (10, 5) (0, 9) (10, 9) =
      ((10, 1), (10, 5), (10, 9)) :=
  ⟨⟨by decide, by decide⟩,
   frontleg_tie_right (0, 1) (10, 1) (0, 5) (10, 5) (0, 9) (10, 9)
     (by decide) (by decide)⟩

/-- A squat update whose knee angle is at least 70 leaves a state whose
squat phase is "up" completely unchanged. -/
theorem squat_update_fixed (sr pr lr : ℤ) (pp lp : String) (a : ℚ)
    (ha : 70 ≤ a) :
    (ExerciseDetector.update
        ⟨sr, pr, lr, "up", pp, lp, Exercise.Squat⟩ [("knee", a)]).1 =
      ⟨sr, pr, lr, "up", pp, lp, Exercise.Squat⟩ := by
  have h1 : ¬ ((a : ℚ) < 70) := not_lt.mpr ha
  have hget : dictGet [("knee", a)] "knee" 180 = a := by
    simp [dictGet]
  simp [ExerciseDetector.update, hget, h1]

/-- C5: from the initial state with Squat selected, any finite sequence
of knee angles all at least 70 leaves the squat repetition counter at
0. -/
theorem squat_no_drop_no_reps (l : List ℚ) (h : ∀ a ∈ l, 70 ≤ a) :
    (runSquatSeq l).repsOf Exercise.Squat = 0 := by
  suffices hfix : runSquatSeq l = initState by
    rw [hfix]; decide
  unfold runSquatSeq
  induction l with
  | nil => rfl
  | cons a t ih =>
      have ha : 70 ≤ a := h a (List.mem_cons_self a t)
      have ht : ∀ b ∈ t, 70 ≤ b := fun b hb => h b (List.mem_cons_of_mem a hb)
      rw [List.foldl_cons]
      have : (ExerciseDetector.update initState [("knee", a)]).1 = initState :=
        squat_update_fixed 0 0 0 "up" "up" a ha
      rw [this]
      exact ih ht

/-- C5 witness at the concrete sequence [70, 100, 180]. -/
theorem squat_no_drop_no_reps_witness :
    (∀ a ∈ ([70, 100, 180] : List ℚ), 70 ≤ a) ∧
    (runSquatSeq [70, 100, 180]).repsOf Exercise.Squat = 0 :=
  ⟨by decide, squat_no_drop_no_reps [70, 100, 180] (by decide)⟩

/-- C6: update reads and mutates only the selected exercise's state:
the repetition counter and phase of every non-selected exercise are
unchanged by the call. -/
theorem update_preserves_inactive (s : DetectorState) (m : AngleMap)
    (e : Exercise) (h : e ≠ s.current_exercise) :
    ((ExerciseDetector.update s m).1).repsOf e = s.repsOf e ∧
    ((ExerciseDetector.update s m).1).phaseOf e = s.phaseOf e := by
  rcases s with ⟨sr, pr, lr, sp, pp, lp, cur⟩
  cases cur <;> cases e <;> simp at h <;>
    unfold ExerciseDetector.update <;>
    split_ifs <;>
    simp [DetectorState.repsOf, DetectorState.phaseOf]

/-- C6 witness: an update in the initial state (Squat selected) leaves
the push-up counter and phase unchanged. -/
theorem update_preserves_inactive_witness :
    Exercise.Pushup ≠ initState.current_exercise ∧
    (((ExerciseDetector.update initState [("knee", 60)]).1).repsOf
        Exercise.Pushup = initState.repsOf Exercise.Pushup ∧
     ((ExerciseDetector.update initState [("knee", 60)]).1).phaseOf
        Exercise.Pushup = initState.phaseOf Exercise.Pushup) :=
  ⟨by decide,
   update_preserves_inactive initState [("knee", 60)] Exercise.Pushup
     (by decide)⟩

/-- C10: set_exercise with a name that is not a rep_counters key is a
silent no-op: the state (selection, counters, phases) is returned
unchanged. -/
theorem set_exercise_unknown_noop (s : DetectorState) (n : String)
    (h1 : n ≠ "Squat") (h2 : n ≠ "Push-up") (h3 : n ≠ "Lunge") :
    ExerciseDetector.set_exercise s n = s := by
  simp [ExerciseDetector.set_exercise, h1, h2, h3]

/-- C10 witness at the unknown name "Plank". -/
theorem set_exercise_unknown_noop_witness :
    (("Plank" : String) ≠ "Squat" ∧ ("Plank" : String) ≠ "Push-up" ∧
      ("Plank" : String) ≠ "Lunge") ∧
    ExerciseDetector.set_exercise initState "Plank" = initState :=
  ⟨⟨by decide, by decide, by decide⟩,
   set_exercise_unknown_noop initState "Plank" (by decide) (by decide)
     (by decide)⟩

/-- An update never decreases any repetition counter. -/
theorem update_reps_mono (s : DetectorState) (m : AngleMap) (e : Exercise) :
    s.repsOf e ≤ ((ExerciseDetector.update s m).1).repsOf e := by
  rcases s with ⟨sr, pr, lr, sp, pp, lp, cur⟩
  cases cur <;> cases e <;>
    unfold ExerciseDetector.update <;> split_ifs <;>
    simp [DetectorState.repsOf]

/-- set_exercise changes at most the selected exercise; every counter
and phase is unchanged. -/
theorem set_exercise_preserves (s : DetectorState) (n : String) (e : Exercise) :
    (ExerciseDetector.set_exercise s n).repsOf e = s.repsOf e ∧
    (ExerciseDetector.set_exercise s n).phaseOf e = s.phaseOf e := by
  unfold ExerciseDetector.set_exercise
  split_ifs <;> cases e <;>
    simp [DetectorState.repsOf, DetectorState.phaseOf]

/-- An update writes only the strings "up" and "down" into phases. -/
theorem update_phase_ok (s : DetectorState) (m : AngleMap) (e : Exercise)
    (h : s.phaseOf e = "up" ∨ s.phaseOf e = "down") :
    ((ExerciseDetector.update s m).1).phaseOf e = "up" ∨
    ((ExerciseDetector.update s m).1).phaseOf e = "down" := by
  rcases s with ⟨sr, pr, lr, sp, pp, lp, cur⟩
  cases cur <;> cases e <;>
    unfold ExerciseDetector.update <;> split_ifs <;>
    first
      | exact Or.inl rfl
      | exact Or.inr rfl
      | exact h

/-- The state invariant: counters non-negative, phases in {up, down}. -/
def InvOK (s : DetectorState) : Prop :=
  ∀ e : Exercise, 0 ≤ s.repsOf e ∧ (s.phaseOf e = "up" ∨ s.phaseOf e = "down")

/-- The invariant holds initially. -/
theorem invOK_init : InvOK initState := by
  intro e
  cases e <;> exact ⟨le_refl 0, Or.inl rfl⟩

/-- The invariant is preserved by every call. -/
theorem invOK_step (s : DetectorState) (st : Step) (h : InvOK s) :
    InvOK (applyStep s st) := by
  intro e
  cases st with
  | upd m =>
      exact ⟨le_trans (h e).1 (update_reps_mono s m e),
             update_phase_ok s m e (h e).2⟩
  | sel n =>
      have hp := set_exercise_preserves s n e
      exact ⟨hp.1 ▸ (h e).1, hp.2 ▸ (h e).2⟩

/-- The invariant holds at every reachable state. -/
theorem invOK_runSteps (steps : List Step) : InvOK (runSteps steps) := by
  unfold runSteps
  suffices hgen : ∀ s : DetectorState, InvOK s → InvOK (steps.foldl applyStep s) from
    hgen initState invOK_init
  induction steps with
  | nil => intro s hs; exact hs
  | cons st t ih =>
      intro s hs
      rw [List.foldl_cons]
      exact ih (applyStep s st) (invOK_step s st hs)

/-- C7: along every sequence of update and set_exercise calls from the
initial state, every repetition counter is non-negative, every phase
is "up" or "down", and any further call leaves every counter at least
its prior value. -/
theorem detector_invariants (steps : List Step) (e : Exercise) :
    0 ≤ (runSteps steps).repsOf e ∧
    ((runSteps steps).phaseOf e = "up" ∨ (runSteps steps).phaseOf e = "down") ∧
    ∀ st : Step, (runSteps steps).repsOf e ≤
      (applyStep (runSteps steps) st).repsOf e := by
  obtain ⟨h1, h2⟩ := invOK_runSteps steps e
  refine ⟨h1, h2, fun st => ?_⟩
  cases st with
  | upd m => exact update_reps_mono _ m e
  | sel n => exact le_of_eq (set_exercise_preserves _ n e).1.symm

/-- The norm of the edge vector between two distinct points is
nonzero. -/
theorem edge_norm_ne_zero (P Q : ℝ × ℝ) (h : P ≠ Q) :
    Real.sqrt ((P.1 - Q.1) ^ 2 + (P.2 - Q.2) ^ 2) ≠ 0 := by
  intro h0
  have hnn : 0 ≤ (P.1 - Q.1) ^ 2 + (P.2 - Q.2) ^ 2 := by positivity
  have hz : (P.1 - Q.1) ^ 2 + (P.2 - Q.2) ^ 2 = 0 :=
    (Real.sqrt_eq_zero hnn).mp h0
  have h1 : P.1 - Q.1 = 0 := by
    nlinarith [sq_nonneg (P.1 - Q.1), sq_nonneg (P.2 - Q.2)]
  have h2 : P.2 - Q.2 = 0 := by
    nlinarith [sq_nonneg (P.1 - Q.1), sq_nonneg (P.2 - Q.2)]
  exact h (Prod.ext_iff.mpr ⟨by linarith, by linarith⟩)

/-- An arccosine expressed in degrees lies between 0 and 180. -/
theorem arccos_deg_range (x : ℝ) :
    0 ≤ Real.arccos x * 180 / Real.pi ∧ Real.arccos x * 180 / Real.pi ≤ 180 := by
  constructor
  · exact div_nonneg (mul_nonneg (Real.arccos_nonneg x) (by norm_num))
      Real.pi_pos.le
  · rw [div_le_iff₀ Real.pi_pos]
    have h := Real.arccos_le_pi x
    nlinarith [Real.pi_pos]

/-- C8: for non-degenerate inputs (both edge vectors of nonzero
length) the computed angle lies in [0, 180], and for all points the
result is invariant under swapping the two non-vertex points. -/
theorem calculate_angle_range_swap (A B C : ℝ × ℝ) :
    (A ≠ B → C ≠ B →
      0 ≤ calculate_angle A B C ∧ calculate_angle A B C ≤ 180) ∧
    calculate_angle A B C = calculate_angle C B A := by
  constructor
  · intro hAB hCB
    have hA := edge_norm_ne_zero A B hAB
    have hC := edge_norm_ne_zero C B hCB
    unfold calculate_angle
    rw [if_neg (by push_neg; exact ⟨hA, hC⟩)]
    exact arccos_deg_range _
  · unfold calculate_angle
    have hd : (A.1 - B.1) * (C.1 - B.1) + (A.2 - B.2) * (C.2 - B.2) =
        (C.1 - B.1) * (A.1 - B.1) + (C.2 - B.2) * (A.2 - B.2) := by ring
    rw [hd, mul_comm (Real.sqrt ((A.1 - B.1) ^ 2 + (A.2 - B.2) ^ 2))
      (Real.sqrt ((C.1 - B.1) ^ 2 + (C.2 - B.2) ^ 2))]
    exact if_congr or_comm rfl rfl

/-- C8 witness at the collinear points (0,0), (1,0), (2,0). -/
theorem calculate_angle_range_swap_witness :
    (((0 : ℝ), (0 : ℝ)) ≠ ((1 : ℝ), (0 : ℝ)) ∧
      ((2 : ℝ), (0 : ℝ)) ≠ ((1 : ℝ), (0 : ℝ))) ∧
    (0 ≤ calculate_angle (0, 0) (1, 0) (2, 0) ∧
      calculate_angle (0, 0) (1, 0) (2, 0) ≤ 180) :=
  ⟨⟨by simp [Prod.ext_iff], by simp [Prod.ext_iff]⟩,
   (calculate_angle_range_swap (0, 0) (1, 0) (2, 0)).1
     (by simp [Prod.ext_iff]) (by simp [Prod.ext_iff])⟩
